import Mathlib

/-!
A shallow embedding of the online anomaly-detection engine in
`src/listener.py` (the simulator and the websocket bridge are external
collaborators and are not modelled).  Raw sensor values, statistics and
times are modelled as exact rationals (the source computes with IEEE
doubles); z-scores, which involve a square root, live in `ℝ`.
-/

namespace Listener

/-! ### Configuration constants (src/listener.py, lines 5-25) -/

def SIGNALS : List String :=
  ["nozzle_temp_c", "bed_temp_c", "extruder_flow_mm3_s", "print_speed_mm_s"]

def ALPHA : ℚ := 5 / 100

def EPS : ℚ := 1 / 1000000000

def WARN_Z : ℚ := 3

def ALERT_Z : ℚ := 45 / 10

def RUNLEN_ALERT : ℕ := 6

def DEDUP_COOLDOWN_S : ℚ := 3

def TREND_WINDOW : ℕ := 80

/-! ### EWStats (src/listener.py, lines 28-46) -/

/-- Exponentially weighted mean/variance state.  `mean = none` encodes the
Python `None` initial value; the source sets `mean` and `var` together. -/
structure EWStats where
  alpha : ℚ
  mean : Option ℚ
  var : Option ℚ
deriving DecidableEq, Repr

def EWStats.init (alpha : ℚ) : EWStats := ⟨alpha, none, none⟩

/-- `EWStats.update`: returns the `(mean, var)` pair the Python method
returns, together with the mutated state. -/
def EWStats.update (st : EWStats) (x : ℚ) : (ℚ × ℚ) × EWStats :=
  match st.mean with
  | none => ((x, 0), ⟨st.alpha, some x, some 0⟩)
  | some m_prev =>
      let mean := st.alpha * x + (1 - st.alpha) * m_prev
      let resid := x - m_prev
      let var := st.alpha * (resid * resid) + (1 - st.alpha) * (st.var.getD 0)
      ((mean, var), ⟨st.alpha, some mean, some var⟩)

/-! ### RunLength (src/listener.py, lines 48-59) -/

/-- Counts consecutive samples with `|z| ≥ threshold`.  The threshold is a
real number because z-scores are real. -/
structure RunLength where
  threshold : ℝ
  count : ℕ

open Classical in
/-- `RunLength.update`: increment on `|z| ≥ threshold`, reset to 0
otherwise; returns the new count and the mutated state. -/
noncomputable def RunLength.update (st : RunLength) (z : ℝ) : ℕ × RunLength :=
  if st.threshold ≤ |z| then (st.count + 1, ⟨st.threshold, st.count + 1⟩)
  else (0, ⟨st.threshold, 0⟩)

/-! ### zscore (src/listener.py, lines 61-62) -/

/-- `zscore(x, mean, var)`; `none` arguments model Python `None`, coalesced
to `0.0` exactly as in the source. -/
noncomputable def zscore (x : ℝ) (mean : Option ℝ) (var : Option ℝ) : ℝ :=
  (x - mean.getD 0) / Real.sqrt (var.getD 0 + (EPS : ℚ))

/-! ### short_diagnosis (src/listener.py, lines 64-119) -/

/-- The `context` dict passed to `short_diagnosis`; the source populates its
only key, `"recent"`, with a snapshot of the recent-window deque. -/
structure Context where
  recent : List ℚ
deriving DecidableEq, Repr

/-- `[recent[i+1]-recent[i] for i in range(len(recent)-1)]`. -/
def firstDiffs (recent : List ℚ) : List ℚ :=
  (recent.zip recent.tail).map fun p => p.2 - p.1

/-- `sum(1 for i in range(len(diffs)-1) if diffs[i]*diffs[i+1] < 0)`. -/
def signChanges (diffs : List ℚ) : ℕ :=
  ((diffs.zip diffs.tail).filter fun p => decide (p.1 * p.2 < 0)).length

/-- The oscillation heuristic in the `bed_temp_c` branch: at least 20 recent
samples and sign changes in the first difference exceeding `0.35` of the
number of differences. -/
def oscillating (recent : List ℚ) : Bool :=
  if 20 ≤ recent.length then
    let diffs := firstDiffs recent
    decide ((diffs.length : ℚ) * (35 / 100) < (signChanges diffs : ℚ))
  else false

open Classical in
/-- `short_diagnosis(signal, z, value, context)`: human-friendly message and
suggested tweaks.  (As in the source, the `value` argument is unused.) -/
noncomputable def short_diagnosis (signal : String) (z : ℝ) (value : ℚ)
    (context : Context) : String × List String :=
  let s := signal
  let sign := if 0 < z then "high" else "low"
  if s = "extruder_flow_mm3_s" then
    if z < 0 then
      ("Possible under-extrusion (flow low).",
       ["Increase nozzle temp +5 °C",
        "Reduce print speed −10%",
        "Check for partial clog / filament path"])
    else
      ("Possible over-extrusion (flow high).",
       ["Reduce extrusion multiplier −5–10%",
        "Lower nozzle temp −5 °C if over-melting"])
  else if s = "nozzle_temp_c" then
    if z < 0 then
      ("Nozzle temp below trend (heater lag / draft).",
       ["Raise nozzle temp +3–5 °C",
        "Reduce fan / shield from drafts",
        "Check heater PID / power"])
    else
      ("Nozzle temp above trend.",
       ["Lower nozzle temp −3–5 °C",
        "Verify fan RPM / PID gains"])
  else if s = "bed_temp_c" then
    let recent := context.recent
    let osc := oscillating recent
    if osc then
      ("Bed temp oscillating (PID/drafts).",
       ["Tune bed PID",
        "Cover enclosure / reduce drafts",
        "Allow more warm-up time"])
    else
      (s!"Bed temp {sign} vs trend.",
       ["Adjust bed temp ±3 °C",
        "Check enclosure / drafts / PID"])
  else if s = "print_speed_mm_s" then
    if 0 < z then
      ("Print speed above trend (could trigger flow/adhesion issues).",
       ["Consider −10% speed",
        "Verify extrusion keeps up"])
    else
      ("Print speed below trend.",
       ["Check if speed reductions are intentional",
        "Re-balance temp vs. speed"])
  else
    (s!"{s} {sign} vs expected.", ["Inspect recent changes"])

/-! ### Main loop (src/listener.py, lines 121-194) -/

/-- A JSON value stored under a signal key.  `num q` covers the values
Python `float()` converts (numbers, numeric strings, booleans); `nonnum`
covers the values on which `float()` raises (`None`, non-numeric strings,
lists, objects). -/
inductive JVal where
  | num (q : ℚ)
  | nonnum
deriving DecidableEq, Repr

/-- `float(v)`: `none` when the conversion raises. -/
def pyFloat : JVal → Option ℚ
  | .num q => some q
  | .nonnum => none

/-- One already-JSON-decoded input record: the `ts` and `t_sec` fields
(`rec.get` yields `None`, i.e. `none`, when absent) and the `signals`
mapping. -/
structure Record where
  ts : Option String
  t_sec : Option ℚ
  signals : List (String × JVal)

/-- `sigs[s]` lookup paired with the `s in sigs` test: `none` iff absent. -/
def lookupSig (sigs : List (String × JVal)) (s : String) : Option JVal :=
  (sigs.find? fun p => p.1 == s).map fun p => p.2

/-- `deque(maxlen=TREND_WINDOW).append`: drop from the left once full. -/
def dequeAppend (l : List ℚ) (x : ℚ) : List ℚ :=
  let l' := l ++ [x]
  if TREND_WINDOW < l'.length then l'.drop (l'.length - TREND_WINDOW) else l'

/-- One line written to stdout: an anomaly event or a control advisory.
The source rounds `value` to 4 and `zscore` to 2 decimals for display;
the unrounded quantities are carried here. -/
inductive Output where
  | event (ts : Option String) (t_sec : Option ℚ) (severity : String)
      (signal : String) (value : ℚ) (z : ℝ) (message : String)
      (suggestions : List String)
  | ctrl (ts : Option String) (t_sec : Option ℚ) (control_action : String)
      (reason : String)

/-- The engine state of `main()`: the per-signal dicts `stats`, `runlen`
and `recents`, and the dedup map `last_emit` (key ↦ `(msg, t_last)`,
defaulting to `(None, 0.0)`). -/
structure EngineState where
  stats : String → EWStats
  runlen : String → RunLength
  recents : String → List ℚ
  last_emit : String → Option String × ℚ

/-- The state built at the top of `main()`. -/
noncomputable def initState : EngineState where
  stats := fun _ => EWStats.init ALPHA
  runlen := fun _ => ⟨(WARN_Z : ℝ), 0⟩
  recents := fun _ => []
  last_emit := fun _ => (none, 0)

open Classical in
/-- The severity decision of lines 154-159: `ALERT` if `|z| ≥ ALERT_Z` or
`rl ≥ RUNLEN_ALERT`, else `WARN` if `|z| ≥ WARN_Z`, else none. -/
noncomputable def decideSeverity (z : ℝ) (rl : ℕ) : Option String :=
  if (ALERT_Z : ℝ) ≤ |z| ∨ RUNLEN_ALERT ≤ rl then some "ALERT"
  else if (WARN_Z : ℝ) ≤ |z| then some "WARN"
  else none

open Classical in
/-- The body of the `for s in SIGNALS` loop for one present signal key,
lines 146-194.  `now` is the value `time.time()` returns while this sample
is processed.  `.error ()` models the uncaught exception raised by
`float(sigs[s])` on a non-numeric value, which aborts `main()`. -/
noncomputable def processSignal (now : ℚ) (ts : Option String)
    (t_sec : Option ℚ) (st : EngineState) (s : String) (v : JVal) :
    Except Unit (EngineState × List Output) :=
  match pyFloat v with
  | none => .error ()
  | some x =>
      let mv := (st.stats s).update x
      let z := zscore (x : ℝ) (some ((mv.1.1 : ℝ))) (some ((mv.1.2 : ℝ)))
      let recents' := dequeAppend (st.recents s) x
      let rlp := (st.runlen s).update z
      let st1 : EngineState :=
        { st with
          stats := Function.update st.stats s mv.2
          runlen := Function.update st.runlen s rlp.2
          recents := Function.update st.recents s recents' }
      match decideSeverity z rlp.1 with
      | none => .ok (st1, [])
      | some severity =>
          let da := short_diagnosis s z x ⟨recents'⟩
          let key := severity ++ ":" ++ s ++ ":" ++ (if 0 < z then "HIGH" else "LOW")
          let last := (st1.last_emit key).2
          if DEDUP_COOLDOWN_S ≤ now - last then
            let st2 : EngineState :=
              { st1 with
                last_emit := Function.update st1.last_emit key (some da.1, now) }
            let ev := Output.event ts t_sec severity s x z da.1 da.2
            if severity = "ALERT" ∧ (s = "extruder_flow_mm3_s" ∨ s = "nozzle_temp_c") then
              .ok (st2, [ev, Output.ctrl ts t_sec "PAUSE_PRINT" (s!"{s} severe anomaly")])
            else
              .ok (st2, [ev])
          else
            .ok (st1, [])

/-- One iteration of the `for s in SIGNALS` loop: skip an absent signal
(`continue`), otherwise process it and accumulate its outputs. -/
noncomputable def processRecordSignal (now : ℚ) (rec : Record)
    (acc : EngineState × List Output) (s : String) :
    Except Unit (EngineState × List Output) :=
  match lookupSig rec.signals s with
  | none => pure acc
  | some v => do
      let r ← processSignal now rec.ts rec.t_sec acc.1 s v
      pure (r.1, acc.2 ++ r.2)

/-- `for s in SIGNALS: if s not in sigs: continue; ...` for one record. -/
noncomputable def processRecord (now : ℚ) (st : EngineState) (rec : Record) :
    Except Unit (EngineState × List Output) :=
  SIGNALS.foldlM (processRecordSignal now rec) (st, [])

/-- The `for line in sys.stdin` loop over the records that survive JSON
decoding (blank and undecodable lines are skipped by the source and are
not part of the input).  Each record is paired with the wall-clock time
observed while it is processed.  An `.error ()` aborts the whole run. -/
noncomputable def run (st : EngineState) (input : List (ℚ × Record)) :
    Except Unit (EngineState × List Output) :=
  input.foldlM
    (fun acc tr => do
      let r ← processRecord tr.1 acc.1 tr.2
      pure (r.1, acc.2 ++ r.2))
    (st, [])

/-! ### Named intermediates of one `processSignal` step, used to state
properties about it. -/

/-- The z-score computed for value `x` of signal `s` (line 150). -/
noncomputable def sampleZ (st : EngineState) (s : String) (x : ℚ) : ℝ :=
  zscore (x : ℝ) (some ((((st.stats s).update x).1.1 : ℝ)))
    (some ((((st.stats s).update x).1.2 : ℝ)))

/-- The run length returned for this sample (line 152). -/
noncomputable def sampleRL (st : EngineState) (s : String) (x : ℚ) : ℕ :=
  ((st.runlen s).update (sampleZ st s x)).1

/-- The severity decided for this sample (lines 154-159). -/
noncomputable def sampleSeverity (st : EngineState) (s : String) (x : ℚ) :
    Option String :=
  decideSeverity (sampleZ st s x) (sampleRL st s x)

/-- The diagnosis recomputed for this sample (line 162). -/
noncomputable def sampleDiag (st : EngineState) (s : String) (x : ℚ) :
    String × List String :=
  short_diagnosis s (sampleZ st s x) x ⟨dequeAppend (st.recents s) x⟩

open Classical in
/-- The dedup key for this sample under severity `sev` (line 165). -/
noncomputable def sampleKey (st : EngineState) (s : String) (x : ℚ)
    (sev : String) : String :=
  sev ++ ":" ++ s ++ ":" ++ (if 0 < sampleZ st s x then "HIGH" else "LOW")

/-- The unconditional per-sample state update (lines 148-152): statistics,
recent window and run length; `last_emit` untouched. -/
noncomputable def stepStats (st : EngineState) (s : String) (x : ℚ) :
    EngineState :=
  { st with
    stats := Function.update st.stats s ((st.stats s).update x).2
    runlen := Function.update st.runlen s ((st.runlen s).update (sampleZ st s x)).2
    recents := Function.update st.recents s (dequeAppend (st.recents s) x) }

/-- Feeding a sequence of z-scores through a `RunLength` tracker. -/
noncomputable def runFold (st : RunLength) (zs : List ℝ) : RunLength :=
  zs.foldl (fun a z => (a.update z).2) st

/-- A concrete mid-stream engine state used to evaluate the theorems on
explicit inputs: every signal has mean 0, variance 0, run-length count `c`,
an empty recent window, and a last emission at time `t` under every key. -/
noncomputable def exampleState (c : ℕ) (t : ℚ) : EngineState where
  stats := fun _ => ⟨ALPHA, some 0, some 0⟩
  runlen := fun _ => ⟨((WARN_Z : ℚ) : ℝ), c⟩
  recents := fun _ => []
  last_emit := fun _ => (none, t)

/-- The engine state after `exampleState 0 0` emits a WARN Event for
`print_speed_mm_s` with value 1 at time 10. -/
noncomputable def exampleState2 : EngineState :=
  { stepStats (exampleState 0 0) "print_speed_mm_s" 1 with
    last_emit := Function.update (exampleState 0 0).last_emit
      (sampleKey (exampleState 0 0) "print_speed_mm_s" 1 "WARN")
      (some (sampleDiag (exampleState 0 0) "print_speed_mm_s" 1).1, 10) }

/-- The engine state after `exampleState2` additionally absorbs a
suppressed qualifying sample of value 2 for `print_speed_mm_s`. -/
noncomputable def exampleState3 : EngineState :=
  stepStats exampleState2 "print_speed_mm_s" 2

/-! ## Basic lemmas about the z-score -/

lemma EPS_pos : (0 : ℝ) < (EPS : ℚ) := by norm_num [EPS]

lemma den_nonneg {v : ℝ} (hv : 0 ≤ v) : (0 : ℝ) ≤ v + (EPS : ℚ) := by
  have := EPS_pos; linarith

lemma sqrt_den_pos {v : ℝ} (hv : 0 ≤ v) : 0 < Real.sqrt (v + (EPS : ℚ)) :=
  Real.sqrt_pos.mpr (by have := EPS_pos; linarith)

lemma zscore_some (x m v : ℝ) :
    zscore x (some m) (some v) = (x - m) / Real.sqrt (v + (EPS : ℚ)) := rfl

lemma abs_zscore (x m v : ℝ) (hv : 0 ≤ v) :
    |zscore x (some m) (some v)| = |x - m| / Real.sqrt (v + (EPS : ℚ)) := by
  rw [zscore_some, abs_div, abs_of_pos (sqrt_den_pos hv)]

/-- `|z| ≥ T` is equivalent to a purely rational inequality once the real
square root is squared away. -/
lemma le_abs_zscore_iff (x m v T : ℝ) (hv : 0 ≤ v) (hT : 0 ≤ T) :
    T ≤ |zscore x (some m) (some v)| ↔ T ^ 2 * (v + (EPS : ℚ)) ≤ (x - m) ^ 2 := by
  have hs := sqrt_den_pos hv
  calc T ≤ |zscore x (some m) (some v)|
      ↔ T * Real.sqrt (v + (EPS : ℚ)) ≤ |x - m| := by
        rw [abs_zscore x m v hv, le_div_iff₀ hs]
    _ ↔ (T * Real.sqrt (v + (EPS : ℚ))) ^ 2 ≤ |x - m| ^ 2 :=
        (pow_le_pow_iff_left₀ (mul_nonneg hT hs.le) (abs_nonneg _) two_ne_zero).symm
    _ ↔ T ^ 2 * (v + (EPS : ℚ)) ≤ (x - m) ^ 2 := by
        rw [mul_pow, Real.sq_sqrt (den_nonneg hv), sq_abs]

lemma abs_zscore_lt_iff (x m v T : ℝ) (hv : 0 ≤ v) (hT : 0 ≤ T) :
    |zscore x (some m) (some v)| < T ↔ (x - m) ^ 2 < T ^ 2 * (v + (EPS : ℚ)) := by
  rw [← not_le, ← not_le, le_abs_zscore_iff x m v T hv hT]

lemma zscore_pos_iff (x m v : ℝ) (hv : 0 ≤ v) :
    0 < zscore x (some m) (some v) ↔ m < x := by
  rw [zscore_some, lt_div_iff₀ (sqrt_den_pos hv), zero_mul, sub_pos]

lemma zscore_neg_iff (x m v : ℝ) (hv : 0 ≤ v) :
    zscore x (some m) (some v) < 0 ↔ x < m := by
  rw [zscore_some, div_lt_iff₀ (sqrt_den_pos hv), zero_mul, sub_neg]

lemma zscore_self (x : ℝ) (v : Option ℝ) : zscore x (some x) v = 0 := by
  simp [zscore]

/-! Rational-input versions, phrased so the right-hand sides are decidable. -/

lemma le_abs_zscore_rat (x m v T : ℚ) (hv : 0 ≤ v) (hT : 0 ≤ T) :
    ((T : ℚ) : ℝ) ≤ |zscore (x : ℚ) (some ((m : ℚ) : ℝ)) (some ((v : ℚ) : ℝ))| ↔
      T ^ 2 * (v + EPS) ≤ (x - m) ^ 2 := by
  rw [le_abs_zscore_iff _ _ _ _ (by exact_mod_cast hv) (by exact_mod_cast hT)]
  push_cast
  constructor <;> intro h <;> exact_mod_cast h

lemma abs_zscore_lt_rat (x m v T : ℚ) (hv : 0 ≤ v) (hT : 0 ≤ T) :
    |zscore (x : ℚ) (some ((m : ℚ) : ℝ)) (some ((v : ℚ) : ℝ))| < ((T : ℚ) : ℝ) ↔
      (x - m) ^ 2 < T ^ 2 * (v + EPS) := by
  rw [abs_zscore_lt_iff _ _ _ _ (by exact_mod_cast hv) (by exact_mod_cast hT)]
  push_cast
  constructor <;> intro h <;> exact_mod_cast h

lemma zscore_pos_rat (x m v : ℚ) (hv : 0 ≤ v) :
    0 < zscore (x : ℚ) (some ((m : ℚ) : ℝ)) (some ((v : ℚ) : ℝ)) ↔ m < x := by
  rw [zscore_pos_iff _ _ _ (by exact_mod_cast hv)]
  exact_mod_cast Iff.rfl

lemma zscore_neg_rat (x m v : ℚ) (hv : 0 ≤ v) :
    zscore (x : ℚ) (some ((m : ℚ) : ℝ)) (some ((v : ℚ) : ℝ)) < 0 ↔ x < m := by
  rw [zscore_neg_iff _ _ _ (by exact_mod_cast hv)]
  exact_mod_cast Iff.rfl

/-! ## Case lemmas for one `processSignal` step -/

lemma processSignal_nonnum (now : ℚ) (ts : Option String) (t_sec : Option ℚ)
    (st : EngineState) (s : String) :
    processSignal now ts t_sec st s .nonnum = .error () := rfl

lemma processSignal_no_severity (now : ℚ) (ts : Option String)
    (t_sec : Option ℚ) (st : EngineState) (s : String) (x : ℚ)
    (h : sampleSeverity st s x = none) :
    processSignal now ts t_sec st s (.num x) = .ok (stepStats st s x, []) := by
  simp only [sampleSeverity, sampleRL, sampleZ] at h
  simp only [processSignal, pyFloat, stepStats, sampleZ]
  rw [h]

lemma processSignal_suppressed (now : ℚ) (ts : Option String)
    (t_sec : Option ℚ) (st : EngineState) (s : String) (x : ℚ) (sev : String)
    (h : sampleSeverity st s x = some sev)
    (hgate : now - (st.last_emit (sampleKey st s x sev)).2 < DEDUP_COOLDOWN_S) :
    processSignal now ts t_sec st s (.num x) = .ok (stepStats st s x, []) := by
  simp only [sampleSeverity, sampleRL, sampleZ] at h
  simp only [sampleKey, sampleZ] at hgate
  simp only [processSignal, pyFloat, stepStats, sampleZ]
  rw [h]
  simp only [if_neg (not_le.mpr hgate)]

lemma processSignal_emitted (now : ℚ) (ts : Option String)
    (t_sec : Option ℚ) (st : EngineState) (s : String) (x : ℚ) (sev : String)
    (h : sampleSeverity st s x = some sev)
    (hgate : DEDUP_COOLDOWN_S ≤ now - (st.last_emit (sampleKey st s x sev)).2) :
    processSignal now ts t_sec st s (.num x) =
      .ok ({ stepStats st s x with
               last_emit := Function.update st.last_emit (sampleKey st s x sev)
                 (some (sampleDiag st s x).1, now) },
           if sev = "ALERT" ∧ (s = "extruder_flow_mm3_s" ∨ s = "nozzle_temp_c") then
             [Output.event ts t_sec sev s x (sampleZ st s x)
                (sampleDiag st s x).1 (sampleDiag st s x).2,
              Output.ctrl ts t_sec "PAUSE_PRINT" (s!"{s} severe anomaly")]
           else
             [Output.event ts t_sec sev s x (sampleZ st s x)
                (sampleDiag st s x).1 (sampleDiag st s x).2]) := by
  simp only [sampleSeverity, sampleRL, sampleZ] at h
  simp only [sampleKey, sampleZ] at hgate
  simp only [processSignal, pyFloat, stepStats, sampleZ, sampleKey, sampleDiag]
  rw [h]
  simp only [if_pos hgate]
  split_ifs <;> rfl

/-! ## First-observation lemmas -/

lemma sampleZ_fresh (st : EngineState) (s : String) (x : ℚ)
    (h : st.stats s = EWStats.init ALPHA) : sampleZ st s x = 0 := by
  rw [sampleZ, h]
  show zscore (x : ℝ) (some ((x : ℚ) : ℝ)) (some (((0 : ℚ)) : ℝ)) = 0
  exact zscore_self _ _

lemma sampleRL_fresh (st : EngineState) (s : String) (x : ℚ)
    (h : st.stats s = EWStats.init ALPHA)
    (hrl : (st.runlen s).threshold = ((WARN_Z : ℚ) : ℝ)) :
    sampleRL st s x = 0 := by
  rw [sampleRL, sampleZ_fresh st s x h]
  simp only [RunLength.update, hrl, abs_zero]
  rw [if_neg (by norm_num [WARN_Z])]

lemma sampleSeverity_fresh (st : EngineState) (s : String) (x : ℚ)
    (h : st.stats s = EWStats.init ALPHA)
    (hrl : (st.runlen s).threshold = ((WARN_Z : ℚ) : ℝ)) :
    sampleSeverity st s x = none := by
  rw [sampleSeverity, sampleZ_fresh st s x h, sampleRL_fresh st s x h hrl]
  unfold decideSeverity
  rw [if_neg, if_neg]
  · rw [abs_zero]; norm_num [WARN_Z]
  · rw [abs_zero]; push_neg
    exact ⟨by norm_num [ALERT_Z], by norm_num [RUNLEN_ALERT]⟩

/-! ## Evaluation lemmas for `exampleState` with the sample value 1 -/

lemma exampleState_update (c : ℕ) (t : ℚ) (s : String) :
    ((exampleState c t).stats s).update 1 =
      ((1 / 20, 1 / 20), ⟨ALPHA, some (1 / 20), some (1 / 20)⟩) := by
  show EWStats.update ⟨ALPHA, some 0, some 0⟩ 1 = _
  simp only [EWStats.update]
  norm_num [ALPHA]

lemma exampleState_sampleZ (c : ℕ) (t : ℚ) (s : String) :
    sampleZ (exampleState c t) s 1 =
      zscore ((1 : ℚ) : ℝ) (some (((1 / 20 : ℚ)) : ℝ))
        (some (((1 / 20 : ℚ)) : ℝ)) := by
  rw [sampleZ, exampleState_update]

lemma exampleState_z_warn (c : ℕ) (t : ℚ) (s : String) :
    ((WARN_Z : ℚ) : ℝ) ≤ |sampleZ (exampleState c t) s 1| := by
  rw [exampleState_sampleZ]
  exact (le_abs_zscore_rat 1 (1 / 20) (1 / 20) WARN_Z (by norm_num)
    (by norm_num [WARN_Z])).mpr (by norm_num [WARN_Z, EPS])

lemma exampleState_z_lt_alert (c : ℕ) (t : ℚ) (s : String) :
    |sampleZ (exampleState c t) s 1| < ((ALERT_Z : ℚ) : ℝ) := by
  rw [exampleState_sampleZ]
  exact (abs_zscore_lt_rat 1 (1 / 20) (1 / 20) ALERT_Z (by norm_num)
    (by norm_num [ALERT_Z])).mpr (by norm_num [ALERT_Z, EPS])

lemma exampleState_z_pos (c : ℕ) (t : ℚ) (s : String) :
    0 < sampleZ (exampleState c t) s 1 := by
  rw [exampleState_sampleZ]
  exact (zscore_pos_rat 1 (1 / 20) (1 / 20) (by norm_num)).mpr (by norm_num)

lemma exampleState_sampleRL (c : ℕ) (t : ℚ) (s : String) :
    sampleRL (exampleState c t) s 1 = c + 1 := by
  rw [sampleRL]
  show (RunLength.update ⟨((WARN_Z : ℚ) : ℝ), c⟩
    (sampleZ (exampleState c t) s 1)).1 = c + 1
  simp only [RunLength.update]
  rw [if_pos (exampleState_z_warn c t s)]

lemma exampleState_severity_warn (c : ℕ) (t : ℚ) (s : String)
    (hc : c + 1 < 6) :
    sampleSeverity (exampleState c t) s 1 = some "WARN" := by
  rw [sampleSeverity, exampleState_sampleRL]
  have h1 : ¬(((ALERT_Z : ℚ) : ℝ) ≤ |sampleZ (exampleState c t) s 1| ∨
      RUNLEN_ALERT ≤ c + 1) := by
    push_neg
    exact ⟨exampleState_z_lt_alert c t s, by simpa [RUNLEN_ALERT] using hc⟩
  unfold decideSeverity
  rw [if_neg h1, if_pos (exampleState_z_warn c t s)]

lemma exampleState_severity_alert (t : ℚ) (s : String) :
    sampleSeverity (exampleState 5 t) s 1 = some "ALERT" := by
  rw [sampleSeverity, exampleState_sampleRL]
  unfold decideSeverity
  rw [if_pos (Or.inr (by norm_num [RUNLEN_ALERT]))]

lemma exampleState_key (c : ℕ) (t : ℚ) (s : String) (sev : String) :
    sampleKey (exampleState c t) s 1 sev = sev ++ ":" ++ s ++ ":" ++ "HIGH" := by
  rw [sampleKey, if_pos (exampleState_z_pos c t s)]

/-! ## Claim theorems -/

/-- C1: for every sample, the severity classifier yields exactly one of
{none, WARN, ALERT}: ALERT iff `|z| ≥ ALERT_Z` or `rl ≥ RUNLEN_ALERT`
(so `|z| ≥ ALERT_Z` alone suffices); otherwise WARN iff `|z| ≥ WARN_Z`;
otherwise no severity, and a severity-free sample triggers no further
processing (no output, dedup map untouched). -/
theorem severity_classification (z : ℝ) (rl : ℕ) :
    (decideSeverity z rl = some "ALERT" ∨ decideSeverity z rl = some "WARN" ∨
      decideSeverity z rl = none)
    ∧ (decideSeverity z rl = some "ALERT" ↔
        ((ALERT_Z : ℚ) : ℝ) ≤ |z| ∨ RUNLEN_ALERT ≤ rl)
    ∧ (((ALERT_Z : ℚ) : ℝ) ≤ |z| → decideSeverity z rl = some "ALERT")
    ∧ (decideSeverity z rl = some "WARN" ↔
        ¬(((ALERT_Z : ℚ) : ℝ) ≤ |z| ∨ RUNLEN_ALERT ≤ rl) ∧ ((WARN_Z : ℚ) : ℝ) ≤ |z|)
    ∧ (decideSeverity z rl = none ↔
        |z| < ((WARN_Z : ℚ) : ℝ) ∧ rl < RUNLEN_ALERT)
    ∧ (∀ (now : ℚ) (ts : Option String) (t_sec : Option ℚ) (st : EngineState)
        (s : String) (x : ℚ), sampleSeverity st s x = none →
          processSignal now ts t_sec st s (.num x) = .ok (stepStats st s x, [])
          ∧ (stepStats st s x).last_emit = st.last_emit) := by
  have h43 : ((WARN_Z : ℚ) : ℝ) ≤ ((ALERT_Z : ℚ) : ℝ) := by
    norm_num [WARN_Z, ALERT_Z]
  refine ⟨?_, ?_, ?_, ?_, ?_, ?_⟩
  · unfold decideSeverity; split_ifs <;> simp
  · unfold decideSeverity
    split_ifs with h1 h2 <;> simp_all
  · intro h; unfold decideSeverity; rw [if_pos (Or.inl h)]
  · unfold decideSeverity
    split_ifs with h1 h2 <;> simp_all
  · unfold decideSeverity
    split_ifs with h1 h2
    · apply iff_of_false (by simp)
      rintro ⟨ha, hb⟩
      rcases h1 with h | h
      · linarith
      · omega
    · apply iff_of_false (by simp)
      rintro ⟨ha, hb⟩
      linarith
    · apply iff_of_true rfl
      push_neg at h1
      exact ⟨not_le.mp h2, h1.2⟩
  · intro now ts t_sec st s x h
    exact ⟨processSignal_no_severity now ts t_sec st s x h, rfl⟩

/-- Witness for C1 at concrete inputs. -/
theorem severity_classification_witness :
    decideSeverity 5 0 = some "ALERT" ∧ decideSeverity 0 0 = none ∧
      processSignal 0 none none initState "bed_temp_c" (.num 42) =
        .ok (stepStats initState "bed_temp_c" 42, []) := by
  refine ⟨(severity_classification 5 0).2.2.1 ?_,
          (severity_classification 0 0).2.2.2.2.1.mpr ⟨?_, ?_⟩,
          ((severity_classification 0 0).2.2.2.2.2 0 none none initState
            "bed_temp_c" 42 (sampleSeverity_fresh _ _ _ rfl rfl)).1⟩
  · rw [abs_of_nonneg (by norm_num : (0:ℝ) ≤ 5)]; norm_num [ALERT_Z]
  · rw [abs_zero]; norm_num [WARN_Z]
  · norm_num [RUNLEN_ALERT]

/-- C2: `EWStats.update` sets and returns `mean = value`, `variance = 0` on
the first invocation; on later invocations it returns
`mean' = α·value + (1−α)·mean` and
`variance' = α·(value − mean)² + (1−α)·variance`, the residual taken
against the pre-update mean. -/
theorem ewstats_update_spec (st : EWStats) (x m v : ℚ) :
    (st.mean = none →
      st.update x = ((x, 0), ⟨st.alpha, some x, some 0⟩))
    ∧ (st.mean = some m → st.var = some v →
      st.update x =
        ((st.alpha * x + (1 - st.alpha) * m,
          st.alpha * ((x - m) * (x - m)) + (1 - st.alpha) * v),
         ⟨st.alpha, some (st.alpha * x + (1 - st.alpha) * m),
          some (st.alpha * ((x - m) * (x - m)) + (1 - st.alpha) * v)⟩)) := by
  obtain ⟨a, mo, vo⟩ := st
  constructor
  · intro h
    simp only at h
    subst h
    rfl
  · intro h1 h2
    simp only at h1 h2
    subst h1; subst h2
    rfl

/-- Witness for C2: a first and a subsequent invocation evaluated. -/
theorem ewstats_update_spec_witness :
    (⟨ALPHA, none, none⟩ : EWStats).update 7 = ((7, 0), ⟨ALPHA, some 7, some 0⟩)
    ∧ (⟨ALPHA, some 2, some 4⟩ : EWStats).update 10 =
        ((ALPHA * 10 + (1 - ALPHA) * 2,
          ALPHA * ((10 - 2) * (10 - 2)) + (1 - ALPHA) * 4),
         ⟨ALPHA, some (ALPHA * 10 + (1 - ALPHA) * 2),
          some (ALPHA * ((10 - 2) * (10 - 2)) + (1 - ALPHA) * 4)⟩) :=
  ⟨(ewstats_update_spec ⟨ALPHA, none, none⟩ 7 0 0).1 rfl,
   (ewstats_update_spec ⟨ALPHA, some 2, some 4⟩ 10 2 4).2 rfl rfl⟩

/-- C6: `RunLength.update` increments and returns the running count when
`|z| ≥ threshold` and resets to 0 otherwise; over a contiguous run of
samples all beyond the threshold the count strictly increases by one per
sample, and it is 0 after any sample below the threshold. -/
theorem runlength_update_spec (st : RunLength) (z w : ℝ) (zs : List ℝ) :
    (st.threshold ≤ |z| →
      st.update z = (st.count + 1, ⟨st.threshold, st.count + 1⟩))
    ∧ (|w| < st.threshold → st.update w = (0, ⟨st.threshold, 0⟩))
    ∧ ((∀ u ∈ zs, st.threshold ≤ |u|) →
        (runFold st zs).count = st.count + zs.length) := by
  refine ⟨?_, ?_, ?_⟩
  · intro h; simp only [RunLength.update, if_pos h]
  · intro h; simp only [RunLength.update, if_neg (not_le.mpr h)]
  · induction zs generalizing st with
    | nil => intro _; simp [runFold]
    | cons u rest ih =>
        intro h
        have hu : st.threshold ≤ |u| := h u (by simp)
        have hrest : ∀ w ∈ rest, st.threshold ≤ |w| := by
          intro w hw; exact h w (by simp [hw])
        have hstep : runFold st (u :: rest) =
            runFold ⟨st.threshold, st.count + 1⟩ rest := by
          simp only [runFold, List.foldl_cons, RunLength.update, if_pos hu]
        rw [hstep, ih ⟨st.threshold, st.count + 1⟩ hrest]
        show st.count + 1 + rest.length = st.count + (u :: rest).length
        simp only [List.length_cons]
        omega

/-- Witness for C6: an incrementing sample, a resetting sample, and a
two-sample sustained run evaluated. -/
theorem runlength_update_spec_witness :
    RunLength.update ⟨((WARN_Z : ℚ) : ℝ), 2⟩ 4 = (3, ⟨((WARN_Z : ℚ) : ℝ), 3⟩)
    ∧ RunLength.update ⟨((WARN_Z : ℚ) : ℝ), 2⟩ 1 = (0, ⟨((WARN_Z : ℚ) : ℝ), 0⟩)
    ∧ (runFold ⟨((WARN_Z : ℚ) : ℝ), 2⟩ [4, -5]).count = 4 := by
  have h := runlength_update_spec ⟨((WARN_Z : ℚ) : ℝ), 2⟩ 4 1 [4, -5]
  refine ⟨h.1 ?_, h.2.1 ?_, (h.2.2 ?_).trans (by norm_num)⟩
  · rw [abs_of_nonneg (by norm_num : (0:ℝ) ≤ 4)]; norm_num [WARN_Z]
  · rw [abs_of_nonneg (by norm_num : (0:ℝ) ≤ 1)]; norm_num [WARN_Z]
  · intro u hu
    rcases List.mem_pair.mp hu with rfl | rfl
    · rw [abs_of_nonneg (by norm_num : (0:ℝ) ≤ 4)]; norm_num [WARN_Z]
    · rw [abs_of_nonpos (by norm_num : (-5:ℝ) ≤ 0)]; norm_num [WARN_Z]

/-- C7: the z-score's denominator `sqrt(variance + ε)` is strictly positive
for every variance ≥ 0 (in particular at the first observation, where the
variance is 0), so the quotient is defined, and the z-score is positive
whenever the value exceeds the mean and negative whenever it is below. -/
theorem zscore_defined_and_sign (x m y n v : ℝ) (hv : 0 ≤ v) :
    0 < Real.sqrt (v + (EPS : ℚ))
    ∧ (m < x → 0 < zscore x (some m) (some v))
    ∧ (y < n → zscore y (some n) (some v) < 0) :=
  ⟨sqrt_den_pos hv,
   fun h => (zscore_pos_iff x m v hv).mpr h,
   fun h => (zscore_neg_iff y n v hv).mpr h⟩

/-- Witness for C7 at variance 0 (the first-observation case). -/
theorem zscore_defined_and_sign_witness :
    0 < Real.sqrt ((0 : ℝ) + (EPS : ℚ))
    ∧ 0 < zscore 1 (some 0) (some 0)
    ∧ zscore 0 (some 1) (some 0) < 0 := by
  have h := zscore_defined_and_sign 1 0 0 1 0 le_rfl
  exact ⟨h.1, h.2.1 (by norm_num), h.2.2 (by norm_num)⟩

/-- C10: on the very first sample observed for a monitored signal (fresh
statistics, run-length threshold `WARN_Z`) the z-score is exactly 0, the
severity is none, and no Event or ControlAction is emitted, whatever the
value; only the per-signal statistics are updated. -/
theorem first_sample_no_emission (now : ℚ) (ts : Option String)
    (t_sec : Option ℚ) (st : EngineState) (s : String) (x : ℚ)
    (hstats : st.stats s = EWStats.init ALPHA)
    (hrl : (st.runlen s).threshold = ((WARN_Z : ℚ) : ℝ)) :
    sampleZ st s x = 0
    ∧ sampleSeverity st s x = none
    ∧ processSignal now ts t_sec st s (.num x) = .ok (stepStats st s x, [])
    ∧ (stepStats st s x).last_emit = st.last_emit :=
  ⟨sampleZ_fresh st s x hstats,
   sampleSeverity_fresh st s x hstats hrl,
   processSignal_no_severity now ts t_sec st s x
     (sampleSeverity_fresh st s x hstats hrl),
   rfl⟩

/-- Witness for C10: an extreme first sample on a fresh engine. -/
theorem first_sample_no_emission_witness :
    sampleZ initState "nozzle_temp_c" 1000000 = 0
    ∧ sampleSeverity initState "nozzle_temp_c" 1000000 = none
    ∧ processSignal 0 none none initState "nozzle_temp_c" (.num 1000000) =
        .ok (stepStats initState "nozzle_temp_c" 1000000, []) := by
  have h := first_sample_no_emission 0 none none initState "nozzle_temp_c"
    1000000 rfl rfl
  exact ⟨h.1, h.2.1, h.2.2.1⟩

lemma firstDiffs_length (l : List ℚ) : (firstDiffs l).length = l.length - 1 := by
  unfold firstDiffs
  rw [List.length_map, List.length_zip, List.length_tail,
    min_eq_right (Nat.sub_le _ 1)]

lemma signChanges_all_neg (diffs : List ℚ)
    (h : ∀ p ∈ diffs.zip diffs.tail, p.1 * p.2 < 0) :
    signChanges diffs = diffs.length - 1 := by
  unfold signChanges
  rw [List.filter_eq_self.mpr fun a ha => decide_eq_true (h a ha),
    List.length_zip, List.length_tail, min_eq_right (Nat.sub_le _ 1)]

/-- C8: on the bed-temperature signal, a recent window of at least 20
samples whose first differences alternate in sign at every adjacent pair
makes the sign-change fraction exceed 0.35, and `short_diagnosis` returns
the oscillation message instead of the directional one; with fewer than 20
samples the directional high/low message is returned. -/
theorem bed_oscillation_diagnosis (z : ℝ) (value : ℚ) (recent : List ℚ) :
    (20 ≤ recent.length →
      (∀ p ∈ (firstDiffs recent).zip (firstDiffs recent).tail, p.1 * p.2 < 0) →
      ((firstDiffs recent).length : ℚ) * (35 / 100) <
          (signChanges (firstDiffs recent) : ℚ)
        ∧ short_diagnosis "bed_temp_c" z value ⟨recent⟩ =
            ("Bed temp oscillating (PID/drafts).",
             ["Tune bed PID",
              "Cover enclosure / reduce drafts",
              "Allow more warm-up time"]))
    ∧ (recent.length < 20 →
        short_diagnosis "bed_temp_c" z value ⟨recent⟩ =
          ((if 0 < z then "Bed temp high vs trend." else "Bed temp low vs trend."),
           ["Adjust bed temp ±3 °C",
            "Check enclosure / drafts / PID"])) := by
  constructor
  · intro h20 halt
    have hd : (firstDiffs recent).length = recent.length - 1 :=
      firstDiffs_length recent
    have hsc : signChanges (firstDiffs recent) = recent.length - 2 := by
      rw [signChanges_all_neg _ halt, hd]
      omega
    have hfrac : ((firstDiffs recent).length : ℚ) * (35 / 100) <
        (signChanges (firstDiffs recent) : ℚ) := by
      rw [hd, hsc]
      have h1 : (1 : ℕ) ≤ recent.length := by omega
      have h2 : (2 : ℕ) ≤ recent.length := by omega
      rw [Nat.cast_sub h1, Nat.cast_sub h2]
      have : (20 : ℚ) ≤ (recent.length : ℚ) := by exact_mod_cast h20
      linarith
    refine ⟨hfrac, ?_⟩
    have hosc : oscillating recent = true := by
      unfold oscillating
      rw [if_pos h20]
      exact decide_eq_true hfrac
    simp [short_diagnosis, hosc]
  · intro hlt
    have hosc : oscillating recent = false := by
      unfold oscillating
      rw [if_neg (by omega)]
    by_cases hz : 0 < z <;> simp [short_diagnosis, hosc, hz] <;> rfl

/-- Witness for C8: a 20-sample strictly alternating window and a 2-sample
window evaluated. -/
theorem bed_oscillation_diagnosis_witness :
    short_diagnosis "bed_temp_c" 4 60
        ⟨[0, 1, 0, 1, 0, 1, 0, 1, 0, 1, 0, 1, 0, 1, 0, 1, 0, 1, 0, 1]⟩ =
      ("Bed temp oscillating (PID/drafts).",
       ["Tune bed PID",
        "Cover enclosure / reduce drafts",
        "Allow more warm-up time"])
    ∧ short_diagnosis "bed_temp_c" 4 60 ⟨[60, 61]⟩ =
      ("Bed temp high vs trend.",
       ["Adjust bed temp ±3 °C",
        "Check enclosure / drafts / PID"]) := by
  have h1 := (bed_oscillation_diagnosis 4 60
    [0, 1, 0, 1, 0, 1, 0, 1, 0, 1, 0, 1, 0, 1, 0, 1, 0, 1, 0, 1]).1
    (by decide)
    (by
      intro p hp
      simp [firstDiffs] at hp
      rcases hp with rfl | rfl | rfl | rfl | rfl | rfl | rfl | rfl | rfl | rfl |
        rfl | rfl | rfl | rfl | rfl | rfl | rfl | rfl
      all_goals norm_num)
  have h2 := (bed_oscillation_diagnosis 4 60 [60, 61]).2 (by decide)
  rw [if_pos (by norm_num : (0:ℝ) < 4)] at h2
  exact ⟨h1.2, h2⟩

/-- C5: when a qualifying sample is suppressed by the cooldown, the
per-signal statistics, run length and recent window are updated exactly as
for an emitted sample (the post-state components agree with those of any
same-sample step, emitted or not), no output is produced, and the only
component suppression leaves unchanged is the `last_emit` map. -/
theorem dedup_frame_effect (now : ℚ) (ts : Option String) (t_sec : Option ℚ)
    (st : EngineState) (s : String) (x : ℚ) (sev : String)
    (hsev : sampleSeverity st s x = some sev)
    (hgate : now - (st.last_emit (sampleKey st s x sev)).2 < DEDUP_COOLDOWN_S) :
    processSignal now ts t_sec st s (.num x) = .ok (stepStats st s x, [])
    ∧ (stepStats st s x).stats = Function.update st.stats s ((st.stats s).update x).2
    ∧ (stepStats st s x).runlen =
        Function.update st.runlen s ((st.runlen s).update (sampleZ st s x)).2
    ∧ (stepStats st s x).recents =
        Function.update st.recents s (dequeAppend (st.recents s) x)
    ∧ (stepStats st s x).last_emit = st.last_emit
    ∧ (∀ (now' : ℚ) (st' : EngineState) (outs : List Output),
        processSignal now' ts t_sec st s (.num x) = .ok (st', outs) →
          st'.stats = (stepStats st s x).stats
          ∧ st'.runlen = (stepStats st s x).runlen
          ∧ st'.recents = (stepStats st s x).recents) := by
  refine ⟨processSignal_suppressed now ts t_sec st s x sev hsev hgate,
    rfl, rfl, rfl, rfl, ?_⟩
  intro now' st' outs h
  by_cases hg : DEDUP_COOLDOWN_S ≤ now' - (st.last_emit (sampleKey st s x sev)).2
  · rw [processSignal_emitted now' ts t_sec st s x sev hsev hg] at h
    simp only [Except.ok.injEq, Prod.mk.injEq] at h
    obtain ⟨h1, h2⟩ := h
    subst h1
    exact ⟨rfl, rfl, rfl⟩
  · push_neg at hg
    rw [processSignal_suppressed now' ts t_sec st s x sev hsev hg] at h
    simp only [Except.ok.injEq, Prod.mk.injEq] at h
    obtain ⟨h1, h2⟩ := h
    subst h1
    exact ⟨rfl, rfl, rfl⟩

/-- Witness for C5: a WARN-qualifying sample 1 s after the last emission
under its key is suppressed yet fully updates the internal state. -/
theorem dedup_frame_effect_witness :
    processSignal 11 none none (exampleState 0 10) "print_speed_mm_s" (.num 1) =
      .ok (stepStats (exampleState 0 10) "print_speed_mm_s" 1, [])
    ∧ (stepStats (exampleState 0 10) "print_speed_mm_s" 1).last_emit =
        (exampleState 0 10).last_emit := by
  have h := dedup_frame_effect 11 none none (exampleState 0 10)
    "print_speed_mm_s" 1 "WARN"
    (exampleState_severity_warn 0 10 "print_speed_mm_s" (by norm_num))
    (by
      show (11 : ℚ) - 10 < DEDUP_COOLDOWN_S
      norm_num [DEDUP_COOLDOWN_S])
  exact ⟨h.1, h.2.2.2.2.1⟩

/-- C9: a ControlAction appears among the outputs of a sample step iff an
ALERT Event for one of the safety-critical signals (`extruder_flow_mm3_s`,
`nozzle_temp_c`) is emitted in the same step, and then the step's output is
exactly that Event immediately followed by the ControlAction; a
ControlAction is never standalone and never accompanies a WARN. -/
theorem control_action_pairing (now : ℚ) (ts : Option String)
    (t_sec : Option ℚ) (st : EngineState) (s : String) (x : ℚ)
    (st' : EngineState) (outs : List Output)
    (h : processSignal now ts t_sec st s (.num x) = .ok (st', outs)) :
    (∀ cts ct a r, Output.ctrl cts ct a r ∈ outs →
      (s = "extruder_flow_mm3_s" ∨ s = "nozzle_temp_c")
      ∧ outs = [Output.event ts t_sec "ALERT" s x (sampleZ st s x)
                  (sampleDiag st s x).1 (sampleDiag st s x).2,
                Output.ctrl ts t_sec "PAUSE_PRINT" (s!"{s} severe anomaly")])
    ∧ (sampleSeverity st s x = some "ALERT"
        ∧ (s = "extruder_flow_mm3_s" ∨ s = "nozzle_temp_c")
        ∧ DEDUP_COOLDOWN_S ≤ now - (st.last_emit (sampleKey st s x "ALERT")).2 →
        outs = [Output.event ts t_sec "ALERT" s x (sampleZ st s x)
                  (sampleDiag st s x).1 (sampleDiag st s x).2,
                Output.ctrl ts t_sec "PAUSE_PRINT" (s!"{s} severe anomaly")])
    ∧ (∀ cts ct a r, Output.ctrl cts ct a r ∈ outs →
        sampleSeverity st s x = some "ALERT") := by
  rcases hsev : sampleSeverity st s x with _ | sev
  · rw [processSignal_no_severity now ts t_sec st s x hsev] at h
    simp only [Except.ok.injEq, Prod.mk.injEq] at h
    obtain ⟨h1, h2⟩ := h
    subst h2
    refine ⟨fun cts ct a r hm => absurd hm (by simp), ?_, fun cts ct a r hm =>
      absurd hm (by simp)⟩
    rintro ⟨hA, _, _⟩
    exact absurd hA (by simp)
  · by_cases hg : DEDUP_COOLDOWN_S ≤ now - (st.last_emit (sampleKey st s x sev)).2
    · rw [processSignal_emitted now ts t_sec st s x sev hsev hg] at h
      by_cases hc : sev = "ALERT" ∧ (s = "extruder_flow_mm3_s" ∨ s = "nozzle_temp_c")
      · rw [if_pos hc] at h
        simp only [Except.ok.injEq, Prod.mk.injEq] at h
        obtain ⟨h1, h2⟩ := h
        subst h2
        obtain ⟨hA, hcrit⟩ := hc
        subst hA
        exact ⟨fun cts ct a r _ => ⟨hcrit, rfl⟩, fun _ => rfl,
          fun cts ct a r _ => rfl⟩
      · rw [if_neg hc] at h
        simp only [Except.ok.injEq, Prod.mk.injEq] at h
        obtain ⟨h1, h2⟩ := h
        subst h2
        refine ⟨?_, ?_, ?_⟩
        · intro cts ct a r hm
          simp at hm
        · rintro ⟨hA, hcrit, _⟩
          simp only [Option.some_inj] at hA
          exact absurd ⟨hA, hcrit⟩ hc
        · intro cts ct a r hm
          simp at hm
    · push_neg at hg
      rw [processSignal_suppressed now ts t_sec st s x sev hsev hg] at h
      simp only [Except.ok.injEq, Prod.mk.injEq] at h
      obtain ⟨h1, h2⟩ := h
      subst h2
      refine ⟨fun cts ct a r hm => absurd hm (by simp), ?_, fun cts ct a r hm =>
        absurd hm (by simp)⟩
      rintro ⟨hA, hcrit, hg2⟩
      simp only [Option.some_inj] at hA
      subst hA
      exact absurd hg2 (not_le.mpr hg)

/-- Witness for C9: a run-length-driven ALERT on the flow signal emits the
Event and its paired ControlAction. -/
theorem control_action_pairing_witness :
    processSignal 10 none none (exampleState 5 0) "extruder_flow_mm3_s" (.num 1) =
      .ok ({ stepStats (exampleState 5 0) "extruder_flow_mm3_s" 1 with
               last_emit := Function.update (exampleState 5 0).last_emit
                 (sampleKey (exampleState 5 0) "extruder_flow_mm3_s" 1 "ALERT")
                 (some (sampleDiag (exampleState 5 0) "extruder_flow_mm3_s" 1).1, 10) },
           [Output.event none none "ALERT" "extruder_flow_mm3_s" 1
              (sampleZ (exampleState 5 0) "extruder_flow_mm3_s" 1)
              (sampleDiag (exampleState 5 0) "extruder_flow_mm3_s" 1).1
              (sampleDiag (exampleState 5 0) "extruder_flow_mm3_s" 1).2,
            Output.ctrl none none "PAUSE_PRINT"
              (toString "" ++ toString "extruder_flow_mm3_s" ++
                toString " severe anomaly")])
    ∧ sampleSeverity (exampleState 5 0) "extruder_flow_mm3_s" 1 = some "ALERT" := by
  have hsev := exampleState_severity_alert 0 "extruder_flow_mm3_s"
  have hgate : DEDUP_COOLDOWN_S ≤ (10 : ℚ) -
      ((exampleState 5 0).last_emit
        (sampleKey (exampleState 5 0) "extruder_flow_mm3_s" 1 "ALERT")).2 := by
    show DEDUP_COOLDOWN_S ≤ (10 : ℚ) - 0
    norm_num [DEDUP_COOLDOWN_S]
  have hproc := processSignal_emitted 10 none none (exampleState 5 0)
    "extruder_flow_mm3_s" 1 "ALERT" hsev hgate
  rw [if_pos ⟨rfl, Or.inl rfl⟩] at hproc
  exact ⟨hproc, (control_action_pairing 10 none none (exampleState 5 0)
    "extruder_flow_mm3_s" 1 _ _ hproc).2.2 none none "PAUSE_PRINT"
    (toString "" ++ toString "extruder_flow_mm3_s" ++ toString " severe anomaly")
    (by simp)⟩

/-! ## Evaluation lemmas for arbitrary mid-stream states -/

lemma sampleZ_of (st : EngineState) (s : String) (x m v : ℚ)
    (hstats : st.stats s = ⟨ALPHA, some m, some v⟩) :
    sampleZ st s x =
      zscore (x : ℝ) (some ((ALPHA * x + (1 - ALPHA) * m : ℚ) : ℝ))
        (some ((ALPHA * ((x - m) * (x - m)) + (1 - ALPHA) * v : ℚ) : ℝ)) := by
  rw [sampleZ, hstats]
  rfl

lemma warn_le_sampleZ_of (st : EngineState) (s : String) (x m v : ℚ)
    (hstats : st.stats s = ⟨ALPHA, some m, some v⟩)
    (hv : 0 ≤ ALPHA * ((x - m) * (x - m)) + (1 - ALPHA) * v)
    (hineq : WARN_Z ^ 2 * ((ALPHA * ((x - m) * (x - m)) + (1 - ALPHA) * v) + EPS) ≤
      (x - (ALPHA * x + (1 - ALPHA) * m)) ^ 2) :
    ((WARN_Z : ℚ) : ℝ) ≤ |sampleZ st s x| := by
  rw [sampleZ_of st s x m v hstats]
  exact (le_abs_zscore_rat x (ALPHA * x + (1 - ALPHA) * m)
    (ALPHA * ((x - m) * (x - m)) + (1 - ALPHA) * v) WARN_Z hv
    (by norm_num [WARN_Z])).mpr hineq

lemma sampleZ_lt_alert_of (st : EngineState) (s : String) (x m v : ℚ)
    (hstats : st.stats s = ⟨ALPHA, some m, some v⟩)
    (hv : 0 ≤ ALPHA * ((x - m) * (x - m)) + (1 - ALPHA) * v)
    (hineq : (x - (ALPHA * x + (1 - ALPHA) * m)) ^ 2 <
      ALERT_Z ^ 2 * ((ALPHA * ((x - m) * (x - m)) + (1 - ALPHA) * v) + EPS)) :
    |sampleZ st s x| < ((ALERT_Z : ℚ) : ℝ) := by
  rw [sampleZ_of st s x m v hstats]
  exact (abs_zscore_lt_rat x (ALPHA * x + (1 - ALPHA) * m)
    (ALPHA * ((x - m) * (x - m)) + (1 - ALPHA) * v) ALERT_Z hv
    (by norm_num [ALERT_Z])).mpr hineq

lemma sampleZ_pos_of (st : EngineState) (s : String) (x m v : ℚ)
    (hstats : st.stats s = ⟨ALPHA, some m, some v⟩)
    (hv : 0 ≤ ALPHA * ((x - m) * (x - m)) + (1 - ALPHA) * v)
    (hm : ALPHA * x + (1 - ALPHA) * m < x) :
    0 < sampleZ st s x := by
  rw [sampleZ_of st s x m v hstats]
  exact (zscore_pos_rat x (ALPHA * x + (1 - ALPHA) * m)
    (ALPHA * ((x - m) * (x - m)) + (1 - ALPHA) * v) hv).mpr hm

lemma sampleRL_of (st : EngineState) (s : String) (x : ℚ) (c : ℕ)
    (hrl : st.runlen s = ⟨((WARN_Z : ℚ) : ℝ), c⟩)
    (hwarn : ((WARN_Z : ℚ) : ℝ) ≤ |sampleZ st s x|) :
    sampleRL st s x = c + 1 := by
  rw [sampleRL, hrl]
  simp only [RunLength.update]
  rw [if_pos hwarn]

lemma sampleSeverity_warn_of (st : EngineState) (s : String) (x : ℚ) (c : ℕ)
    (hrl : st.runlen s = ⟨((WARN_Z : ℚ) : ℝ), c⟩)
    (hwarn : ((WARN_Z : ℚ) : ℝ) ≤ |sampleZ st s x|)
    (halert : |sampleZ st s x| < ((ALERT_Z : ℚ) : ℝ))
    (hc : c + 1 < 6) :
    sampleSeverity st s x = some "WARN" := by
  rw [sampleSeverity, sampleRL_of st s x c hrl hwarn]
  unfold decideSeverity
  rw [if_neg (by push_neg; exact ⟨halert, by simpa [RUNLEN_ALERT] using hc⟩),
    if_pos hwarn]

lemma sampleKey_of (st : EngineState) (s : String) (x : ℚ) (sev : String)
    (hpos : 0 < sampleZ st s x) :
    sampleKey st s x sev = sev ++ ":" ++ s ++ ":" ++ "HIGH" := by
  rw [sampleKey, if_pos hpos]

lemma stepStats_stats_of (st : EngineState) (s : String) (x m v : ℚ)
    (hstats : st.stats s = ⟨ALPHA, some m, some v⟩) :
    (stepStats st s x).stats s =
      ⟨ALPHA, some (ALPHA * x + (1 - ALPHA) * m),
       some (ALPHA * ((x - m) * (x - m)) + (1 - ALPHA) * v)⟩ := by
  show Function.update st.stats s ((st.stats s).update x).2 s = _
  rw [Function.update_same, hstats]
  rfl

lemma stepStats_runlen_of (st : EngineState) (s : String) (x : ℚ) (c : ℕ)
    (hrl : st.runlen s = ⟨((WARN_Z : ℚ) : ℝ), c⟩)
    (hwarn : ((WARN_Z : ℚ) : ℝ) ≤ |sampleZ st s x|) :
    (stepStats st s x).runlen s = ⟨((WARN_Z : ℚ) : ℝ), c + 1⟩ := by
  show Function.update st.runlen s ((st.runlen s).update (sampleZ st s x)).2 s = _
  rw [Function.update_same, hrl]
  simp only [RunLength.update]
  rw [if_pos hwarn]

/-- C3 (amended): on a qualifying sample the engine emits iff the
wall-clock time since the last emission under the same
(severity, signal, direction) key is at least (`≥`, not strictly greater
than) the cooldown, updating that key's timestamp on emission; hence in a
run where an emission at time `now` is followed by two qualifying samples
with the same key, one strictly inside the cooldown window and one at
`≥ cooldown` after the emission, the first is suppressed and the second
emits a second Event. -/
theorem dedup_gate_spec (now : ℚ) (ts : Option String) (t_sec : Option ℚ)
    (st : EngineState) (s : String) (x : ℚ) (sev : String)
    (hsev : sampleSeverity st s x = some sev) :
    (DEDUP_COOLDOWN_S ≤ now - (st.last_emit (sampleKey st s x sev)).2 →
      processSignal now ts t_sec st s (.num x) =
        .ok ({ stepStats st s x with
                 last_emit := Function.update st.last_emit (sampleKey st s x sev)
                   (some (sampleDiag st s x).1, now) },
             if sev = "ALERT" ∧ (s = "extruder_flow_mm3_s" ∨ s = "nozzle_temp_c") then
               [Output.event ts t_sec sev s x (sampleZ st s x)
                  (sampleDiag st s x).1 (sampleDiag st s x).2,
                Output.ctrl ts t_sec "PAUSE_PRINT" (s!"{s} severe anomaly")]
             else
               [Output.event ts t_sec sev s x (sampleZ st s x)
                  (sampleDiag st s x).1 (sampleDiag st s x).2]))
    ∧ (now - (st.last_emit (sampleKey st s x sev)).2 < DEDUP_COOLDOWN_S →
        processSignal now ts t_sec st s (.num x) = .ok (stepStats st s x, []))
    ∧ (∀ (now₂ now₃ x₂ x₃ : ℚ) (st₂ st₃ : EngineState),
        st₂ = { stepStats st s x with
                  last_emit := Function.update st.last_emit (sampleKey st s x sev)
                    (some (sampleDiag st s x).1, now) } →
        sampleSeverity st₂ s x₂ = some sev →
        sampleKey st₂ s x₂ sev = sampleKey st s x sev →
        now₂ - now < DEDUP_COOLDOWN_S →
        st₃ = stepStats st₂ s x₂ →
        sampleSeverity st₃ s x₃ = some sev →
        sampleKey st₃ s x₃ sev = sampleKey st s x sev →
        DEDUP_COOLDOWN_S ≤ now₃ - now →
        processSignal now₂ ts t_sec st₂ s (.num x₂) = .ok (st₃, [])
        ∧ processSignal now₃ ts t_sec st₃ s (.num x₃) =
            .ok ({ stepStats st₃ s x₃ with
                     last_emit := Function.update st₃.last_emit (sampleKey st₃ s x₃ sev)
                       (some (sampleDiag st₃ s x₃).1, now₃) },
                 if sev = "ALERT" ∧ (s = "extruder_flow_mm3_s" ∨ s = "nozzle_temp_c") then
                   [Output.event ts t_sec sev s x₃ (sampleZ st₃ s x₃)
                      (sampleDiag st₃ s x₃).1 (sampleDiag st₃ s x₃).2,
                    Output.ctrl ts t_sec "PAUSE_PRINT" (s!"{s} severe anomaly")]
                 else
                   [Output.event ts t_sec sev s x₃ (sampleZ st₃ s x₃)
                      (sampleDiag st₃ s x₃).1 (sampleDiag st₃ s x₃).2])) := by
  refine ⟨fun hg => processSignal_emitted now ts t_sec st s x sev hsev hg,
    fun hg => processSignal_suppressed now ts t_sec st s x sev hsev hg, ?_⟩
  intro now₂ now₃ x₂ x₃ st₂ st₃ hst2 hsev2 hkey2 hwin hst3 hsev3 hkey3 hafter
  subst hst2
  have hlast2 : ∀ k, k = sampleKey st s x sev →
      ({ stepStats st s x with
         last_emit := Function.update st.last_emit (sampleKey st s x sev)
           (some (sampleDiag st s x).1, now) } : EngineState).last_emit k =
        (some (sampleDiag st s x).1, now) := by
    intro k hk
    subst hk
    exact Function.update_same _ _ _
  constructor
  · rw [hst3]
    apply processSignal_suppressed now₂ ts t_sec _ s x₂ sev hsev2
    rw [hlast2 _ hkey2]
    exact hwin
  · apply processSignal_emitted now₃ ts t_sec st₃ s x₃ sev hsev3
    have : st₃.last_emit (sampleKey st₃ s x₃ sev) = (some (sampleDiag st s x).1, now) := by
      conv_lhs => rw [hkey3, hst3]
      exact Function.update_same _ _ _
    rw [this]
    exact hafter

/-- Counterexample to C3 as stated: with the last emission under the key at
time 10 and a qualifying sample at time 13, the elapsed time equals the
cooldown — it does not *exceed* it — yet the engine emits an Event, because
the source tests `now - last >= DEDUP_COOLDOWN_S`. -/
theorem dedup_boundary_counterexample :
    (13 : ℚ) - ((exampleState 0 10).last_emit
        (sampleKey (exampleState 0 10) "print_speed_mm_s" 1 "WARN")).2 =
      DEDUP_COOLDOWN_S
    ∧ processSignal 13 none none (exampleState 0 10) "print_speed_mm_s" (.num 1) =
        .ok ({ stepStats (exampleState 0 10) "print_speed_mm_s" 1 with
                 last_emit := Function.update (exampleState 0 10).last_emit
                   (sampleKey (exampleState 0 10) "print_speed_mm_s" 1 "WARN")
                   (some (sampleDiag (exampleState 0 10) "print_speed_mm_s" 1).1, 13) },
             [Output.event none none "WARN" "print_speed_mm_s" 1
                (sampleZ (exampleState 0 10) "print_speed_mm_s" 1)
                (sampleDiag (exampleState 0 10) "print_speed_mm_s" 1).1
                (sampleDiag (exampleState 0 10) "print_speed_mm_s" 1).2]) := by
  constructor
  · show (13 : ℚ) - 10 = DEDUP_COOLDOWN_S
    norm_num [DEDUP_COOLDOWN_S]
  · have hsev := exampleState_severity_warn 0 10 "print_speed_mm_s" (by norm_num)
    have hgate : DEDUP_COOLDOWN_S ≤ (13 : ℚ) -
        ((exampleState 0 10).last_emit
          (sampleKey (exampleState 0 10) "print_speed_mm_s" 1 "WARN")).2 := by
      show DEDUP_COOLDOWN_S ≤ (13 : ℚ) - 10
      norm_num [DEDUP_COOLDOWN_S]
    have h := processSignal_emitted 13 none none (exampleState 0 10)
      "print_speed_mm_s" 1 "WARN" hsev hgate
    rw [if_neg (by simp)] at h
    exact h

/-- Witness for the amended C3: after the emission at time 10 recorded in
`exampleState2`, a qualifying same-key sample at time 11 (inside the
cooldown) is suppressed, and a qualifying same-key sample at time 14
(cooldown elapsed) emits a second Event. -/
theorem dedup_gate_spec_witness :
    processSignal 11 none none exampleState2 "print_speed_mm_s" (.num 2) =
      .ok (exampleState3, [])
    ∧ processSignal 14 none none exampleState3 "print_speed_mm_s" (.num 3) =
        .ok ({ stepStats exampleState3 "print_speed_mm_s" 3 with
                 last_emit := Function.update exampleState3.last_emit
                   (sampleKey exampleState3 "print_speed_mm_s" 3 "WARN")
                   (some (sampleDiag exampleState3 "print_speed_mm_s" 3).1, 14) },
             [Output.event none none "WARN" "print_speed_mm_s" 3
                (sampleZ exampleState3 "print_speed_mm_s" 3)
                (sampleDiag exampleState3 "print_speed_mm_s" 3).1
                (sampleDiag exampleState3 "print_speed_mm_s" 3).2]) := by
  have hst2stats : exampleState2.stats "print_speed_mm_s" =
      ⟨ALPHA, some (1 / 20), some (1 / 20)⟩ :=
    (stepStats_stats_of (exampleState 0 0) "print_speed_mm_s" 1 0 0 rfl).trans
      (by norm_num [ALPHA, EWStats.mk.injEq])
  have hst2rl : exampleState2.runlen "print_speed_mm_s" =
      ⟨((WARN_Z : ℚ) : ℝ), 1⟩ :=
    stepStats_runlen_of (exampleState 0 0) "print_speed_mm_s" 1 0 rfl
      (exampleState_z_warn 0 0 "print_speed_mm_s")
  have hz2warn : ((WARN_Z : ℚ) : ℝ) ≤ |sampleZ exampleState2 "print_speed_mm_s" 2| :=
    warn_le_sampleZ_of exampleState2 "print_speed_mm_s" 2 (1 / 20) (1 / 20)
      hst2stats (by norm_num [ALPHA]) (by norm_num [ALPHA, WARN_Z, EPS])
  have hz2alert : |sampleZ exampleState2 "print_speed_mm_s" 2| < ((ALERT_Z : ℚ) : ℝ) :=
    sampleZ_lt_alert_of exampleState2 "print_speed_mm_s" 2 (1 / 20) (1 / 20)
      hst2stats (by norm_num [ALPHA]) (by norm_num [ALPHA, ALERT_Z, EPS])
  have hz2pos : 0 < sampleZ exampleState2 "print_speed_mm_s" 2 :=
    sampleZ_pos_of exampleState2 "print_speed_mm_s" 2 (1 / 20) (1 / 20)
      hst2stats (by norm_num [ALPHA]) (by norm_num [ALPHA])
  have hsev2 : sampleSeverity exampleState2 "print_speed_mm_s" 2 = some "WARN" :=
    sampleSeverity_warn_of exampleState2 "print_speed_mm_s" 2 1 hst2rl hz2warn
      hz2alert (by norm_num)
  have hkey2 : sampleKey exampleState2 "print_speed_mm_s" 2 "WARN" =
      sampleKey (exampleState 0 0) "print_speed_mm_s" 1 "WARN" := by
    rw [sampleKey_of exampleState2 "print_speed_mm_s" 2 "WARN" hz2pos,
      exampleState_key 0 0 "print_speed_mm_s" "WARN"]
  have hst3stats : exampleState3.stats "print_speed_mm_s" =
      ⟨ALPHA, some (59 / 400), some (1901 / 8000)⟩ :=
    (stepStats_stats_of exampleState2 "print_speed_mm_s" 2 (1 / 20) (1 / 20)
      hst2stats).trans (by norm_num [ALPHA, EWStats.mk.injEq])
  have hst3rl : exampleState3.runlen "print_speed_mm_s" =
      ⟨((WARN_Z : ℚ) : ℝ), 2⟩ :=
    stepStats_runlen_of exampleState2 "print_speed_mm_s" 2 1 hst2rl hz2warn
  have hz3warn : ((WARN_Z : ℚ) : ℝ) ≤ |sampleZ exampleState3 "print_speed_mm_s" 3| :=
    warn_le_sampleZ_of exampleState3 "print_speed_mm_s" 3 (59 / 400) (1901 / 8000)
      hst3stats (by norm_num [ALPHA]) (by norm_num [ALPHA, WARN_Z, EPS])
  have hz3alert : |sampleZ exampleState3 "print_speed_mm_s" 3| < ((ALERT_Z : ℚ) : ℝ) :=
    sampleZ_lt_alert_of exampleState3 "print_speed_mm_s" 3 (59 / 400) (1901 / 8000)
      hst3stats (by norm_num [ALPHA]) (by norm_num [ALPHA, ALERT_Z, EPS])
  have hz3pos : 0 < sampleZ exampleState3 "print_speed_mm_s" 3 :=
    sampleZ_pos_of exampleState3 "print_speed_mm_s" 3 (59 / 400) (1901 / 8000)
      hst3stats (by norm_num [ALPHA]) (by norm_num [ALPHA])
  have hsev3 : sampleSeverity exampleState3 "print_speed_mm_s" 3 = some "WARN" :=
    sampleSeverity_warn_of exampleState3 "print_speed_mm_s" 3 2 hst3rl hz3warn
      hz3alert (by norm_num)
  have hkey3 : sampleKey exampleState3 "print_speed_mm_s" 3 "WARN" =
      sampleKey (exampleState 0 0) "print_speed_mm_s" 1 "WARN" := by
    rw [sampleKey_of exampleState3 "print_speed_mm_s" 3 "WARN" hz3pos,
      exampleState_key 0 0 "print_speed_mm_s" "WARN"]
  have hsev1 := exampleState_severity_warn 0 0 "print_speed_mm_s" (by norm_num)
  have H := (dedup_gate_spec 10 none none (exampleState 0 0) "print_speed_mm_s"
    1 "WARN" hsev1).2.2 11 14 2 3 exampleState2 exampleState3 rfl hsev2 hkey2
    (by norm_num [DEDUP_COOLDOWN_S]) rfl hsev3 hkey3
    (by norm_num [DEDUP_COOLDOWN_S])
  obtain ⟨H1, H2⟩ := H
  rw [if_neg (by simp)] at H2
  exact ⟨H1, H2⟩

/-! ## Error propagation through the record loop -/

lemma processSignal_num_isOk (now : ℚ) (ts : Option String) (t_sec : Option ℚ)
    (st : EngineState) (s : String) (x : ℚ) :
    ∃ p, processSignal now ts t_sec st s (.num x) = .ok p := by
  rcases hsev : sampleSeverity st s x with _ | sev
  · exact ⟨_, processSignal_no_severity now ts t_sec st s x hsev⟩
  · by_cases hg : DEDUP_COOLDOWN_S ≤ now - (st.last_emit (sampleKey st s x sev)).2
    · exact ⟨_, processSignal_emitted now ts t_sec st s x sev hsev hg⟩
    · push_neg at hg
      exact ⟨_, processSignal_suppressed now ts t_sec st s x sev hsev hg⟩

lemma processRecordSignal_absent (now : ℚ) (rec : Record)
    (acc : EngineState × List Output) (s : String)
    (h : lookupSig rec.signals s = none) :
    processRecordSignal now rec acc s = pure acc := by
  simp only [processRecordSignal, h]

lemma processRecordSignal_nonnum (now : ℚ) (rec : Record)
    (acc : EngineState × List Output) (s : String)
    (h : lookupSig rec.signals s = some JVal.nonnum) :
    processRecordSignal now rec acc s = .error () := by
  simp only [processRecordSignal, h]
  rfl

lemma processRecordSignal_num (now : ℚ) (rec : Record)
    (acc : EngineState × List Output) (s : String) (q : ℚ)
    (h : lookupSig rec.signals s = some (JVal.num q)) :
    processRecordSignal now rec acc s =
      (do
        let r ← processSignal now rec.ts rec.t_sec acc.1 s (JVal.num q)
        pure (r.1, acc.2 ++ r.2)) := by
  simp only [processRecordSignal, h]

lemma processRecord_error_of_nonnum (now : ℚ) (st : EngineState) (rec : Record)
    (s : String) (hs : s ∈ SIGNALS)
    (hbad : lookupSig rec.signals s = some JVal.nonnum) :
    processRecord now st rec = .error () := by
  have key : ∀ (l : List String) (acc : EngineState × List Output),
      (∃ u ∈ l, lookupSig rec.signals u = some JVal.nonnum) →
      (l.foldlM (processRecordSignal now rec) acc :
        Except Unit (EngineState × List Output)) = .error () := by
    intro l
    induction l with
    | nil =>
        rintro acc ⟨u, hu, _⟩
        simp at hu
    | cons a l ih =>
        rintro acc ⟨u, hu, hbadu⟩
        rw [List.foldlM_cons]
        rcases List.mem_cons.mp hu with rfl | hu'
        · rw [processRecordSignal_nonnum now rec acc u hbadu]
          rfl
        · rcases hlook : lookupSig rec.signals a with _ | v
          · rw [processRecordSignal_absent now rec acc a hlook]
            exact ih acc ⟨u, hu', hbadu⟩
          · cases v with
            | num q =>
                rw [processRecordSignal_num now rec acc a q hlook]
                obtain ⟨p, hp⟩ := processSignal_num_isOk now rec.ts rec.t_sec
                  acc.1 a q
                rw [hp]
                exact ih _ ⟨u, hu', hbadu⟩
            | nonnum =>
                rw [processRecordSignal_nonnum now rec acc a hlook]
                rfl
  exact key SIGNALS (st, []) ⟨s, hs, hbad⟩

lemma run_cons_error (st : EngineState) (t : ℚ) (rec : Record)
    (rest : List (ℚ × Record)) (h : processRecord t st rec = .error ()) :
    run st ((t, rec) :: rest) = .error () := by
  show (((t, rec) :: rest).foldlM
    (fun acc tr => do
      let r ← processRecord tr.1 acc.1 tr.2
      pure (r.1, acc.2 ++ r.2))
    (st, []) : Except Unit (EngineState × List Output)) = .error ()
  rw [List.foldlM_cons,
    show processRecord (t, rec).1 ((st, ([] : List Output))).1 (t, rec).2 =
      Except.error () from h]
  rfl

/-- C4 (amended): a present-but-non-numeric monitored signal value makes
`float(sigs[s])` raise; the exception is uncaught, so it aborts the whole
run: the record fails as a unit (the remaining monitored signals of that
record are not processed) and no subsequent record is processed. -/
theorem nonnumeric_value_aborts (now : ℚ) (st : EngineState) (rec : Record)
    (s : String) (hs : s ∈ SIGNALS)
    (hbad : lookupSig rec.signals s = some JVal.nonnum) :
    processRecord now st rec = .error ()
    ∧ ∀ (rest : List (ℚ × Record)), run st ((now, rec) :: rest) = .error () :=
  ⟨processRecord_error_of_nonnum now st rec s hs hbad,
   fun rest => run_cons_error st now rec rest
     (processRecord_error_of_nonnum now st rec s hs hbad)⟩

/-- Counterexample to C4 as stated: a record carrying a non-numeric
`nozzle_temp_c` and a numeric `bed_temp_c` makes the whole record fail —
the numeric `bed_temp_c` of the same record is not processed — and the run
over that record plus a further well-formed record aborts instead of
continuing. -/
theorem nonnumeric_skip_counterexample :
    processRecord 0 initState
      ⟨none, none, [("nozzle_temp_c", JVal.nonnum), ("bed_temp_c", JVal.num 60)]⟩ =
      .error ()
    ∧ run initState
        [(0, ⟨none, none,
            [("nozzle_temp_c", JVal.nonnum), ("bed_temp_c", JVal.num 60)]⟩),
         (1, ⟨none, none, [("bed_temp_c", JVal.num 60)]⟩)] = .error () := by
  have h1 : processRecord 0 initState
      ⟨none, none, [("nozzle_temp_c", JVal.nonnum), ("bed_temp_c", JVal.num 60)]⟩ =
      .error () :=
    processRecord_error_of_nonnum 0 initState _ "nozzle_temp_c"
      (by simp [SIGNALS]) (by rfl)
  exact ⟨h1, run_cons_error initState 0 _ _ h1⟩

/-- Witness for the amended C4: a record whose flow value is non-numeric
aborts both the record and the run. -/
theorem nonnumeric_value_aborts_witness :
    processRecord 5 initState
      ⟨none, none, [("extruder_flow_mm3_s", JVal.nonnum)]⟩ = .error ()
    ∧ run initState
        [(5, ⟨none, none, [("extruder_flow_mm3_s", JVal.nonnum)]⟩)] = .error () := by
  have h := nonnumeric_value_aborts 5 initState
    ⟨none, none, [("extruder_flow_mm3_s", JVal.nonnum)]⟩ "extruder_flow_mm3_s"
    (by simp [SIGNALS]) (by rfl)
  exact ⟨h.1, h.2 []⟩

end Listener
